import Mathlib

/-!
Verification development for the `effectivecloudrun` repository.

Part 1 embeds `cmd/structuredlogging/structuredlogging.go`: the
`X-Cloud-Trace-Context` header parser built on the Go regular expression
`([a-f\d]+)?(?:/([a-f\d]+))?(?:;o=(\d))?` and the eight severity-specific
log-entry constructors.

Part 2 embeds `cmd/graceful/main.go`: the coordinated-shutdown protocol
(`run` and `main`), with the Go standard library collaborators
(`context`, `net/http.Server`, `os/signal`, `errgroup`) modelled from their
documented contracts.
-/

namespace EffectiveCloudRun

/-! ## Part 1: structured logging (`structuredlogging.go`) -/

/-- Character class `[a-f\d]` of `reCloudTraceContext`: a lowercase hex
letter `a`-`f` or a decimal digit (Go's `\d` is `0`-`9`). -/
def isHexDigitGo (c : Char) : Bool :=
  ('a' ≤ c && c ≤ 'f') || ('0' ≤ c && c ≤ '9')

/-- Character class `\d` of `reCloudTraceContext`: a decimal digit. -/
def isDecDigitGo (c : Char) : Bool :=
  '0' ≤ c && c ≤ '9'

/-- Submatches of `reCloudTraceContext`: group 1 is the trace id, group 2 the
span id, group 3 the single sampling digit; `none` means the optional group
did not participate in the match (Go reports such a group as `""`). -/
structure TraceMatch where
  g1 : Option (List Char)
  g2 : Option (List Char)
  g3 : Option (List Char)
deriving Repr, DecidableEq

/-- Remainder of the input after the greedy `([a-f\d]+)?` trace-id group of
the leftmost match (which, the pattern being nullable, starts at index 0). -/
def afterTraceId (s : List Char) : List Char :=
  s.dropWhile isHexDigitGo

/-- Remainder of the input after the greedy `([a-f\d]+)?(?:/([a-f\d]+))?`
portion of the leftmost match: the `/span` piece is consumed only when a `/`
is immediately followed by at least one `[a-f\d]` character. -/
def afterTraceSpan (s : List Char) : List Char :=
  match afterTraceId s with
  | '/' :: rest =>
      match rest.takeWhile isHexDigitGo with
      | [] => '/' :: rest
      | _ => rest.dropWhile isHexDigitGo
  | r => r

/-- Leftmost-first match of `reCloudTraceContext` against `s`, as computed by
Go's regexp engine.  Every piece of the pattern is optional and the character
classes of the three pieces are disjoint from `/` and `;`, so the greedy
leftmost match always starts at index 0 and no backtracking across pieces can
occur: each piece simply consumes its maximal prefix when present. -/
def matchTraceContext (s : List Char) : TraceMatch :=
  let h1 := s.takeWhile isHexDigitGo
  let g1 := if h1 = [] then none else some h1
  let g2 :=
    match afterTraceId s with
    | '/' :: rest =>
        match rest.takeWhile isHexDigitGo with
        | [] => none
        | h2 => some h2
    | _ => none
  let g3 :=
    match afterTraceSpan s with
    | ';' :: 'o' :: '=' :: c :: _ => if isDecDigitGo c then some [c] else none
    | _ => none
  ⟨g1, g2, g3⟩

/-- Full matched text (submatch index 0) reconstructed from the groups. -/
def fullMatch (m : TraceMatch) : List Char :=
  m.g1.getD [] ++
    (match m.g2 with | some h => '/' :: h | none => []) ++
    (match m.g3 with | some d => ';' :: 'o' :: '=' :: d | none => [])

/-- Model of `reCloudTraceContext.FindStringSubmatch(s)`: `none` would mean
"no match" (Go returns `nil`), and a `some` holds the full match at index 0
followed by the three submatches.  Because every sub-pattern of
`reCloudTraceContext` is optional, the empty match at index 0 always exists,
so the search never fails. -/
def findStringSubmatch (s : String) : Option (List (Option String)) :=
  let m := matchTraceContext s.data
  some [some ⟨fullMatch m⟩, m.g1.map String.mk, m.g2.map String.mk, m.g3.map String.mk]

/-- Result triple of `deconstructXCloudTraceContext`. -/
structure TraceParts where
  traceID : String
  spanID : String
  traceSampled : Bool
deriving Repr, DecidableEq

/-- Embedding of `deconstructXCloudTraceContext` (structuredlogging.go lines
95-114): read the three submatches (an absent group reads as `""`), report
sampling exactly when the captured digit is `"1"`, and normalise a span id of
`"0"` to the empty string. -/
def deconstructXCloudTraceContext (s : String) : TraceParts :=
  let ms := matchTraceContext s.data
  let traceID : String := ⟨ms.g1.getD []⟩
  let spanID : String := ⟨ms.g2.getD []⟩
  let traceSampled : Bool := (⟨ms.g3.getD []⟩ : String) == "1"
  if spanID == "0" then ⟨traceID, "", traceSampled⟩
  else ⟨traceID, spanID, traceSampled⟩

/-- Specification-side check: after stripping the (possibly empty) leading
hex run and the optional `/`-plus-hex-run, the input continues with the four
characters `;o=1`. -/
def oComponentIsOne (s : List Char) : Bool :=
  (afterTraceSpan s).take 4 == [';', 'o', '=', '1']

/-- Model of the relevant observable fields of `*http.Request`: the
`X-Cloud-Trace-Context` header (`none` when absent; `Header.Get` then yields
`""`) and the request fields copied into the `httpRequest` log block. -/
structure RequestGo where
  xCloudTraceContext : Option String
  method : String
  urlString : String
  userAgent : String
  remoteAddr : String
  referer : String
deriving Repr, DecidableEq

/-- Embedding of `r.Header.Get("X-Cloud-Trace-Context")`: the header value,
or `""` when the header is absent. -/
def RequestGo.headerXCloudTraceContext (r : RequestGo) : String :=
  r.xCloudTraceContext.getD ""

/-- Embedding of the `httpRequest` block of a structured log entry (only the
fields the severity functions populate). -/
structure HttpRequestGo where
  requestMethod : String
  requestUrl : String
  userAgent : String
  remoteIp : String
  referer : String
deriving Repr, DecidableEq

/-- Embedding of `logEntry` over an opaque message type `α` (Go's
`interface` message).  The `Timestamp` field (`time.Now()`) is ambient
wall-clock state and is not part of the claims, so it is omitted. -/
structure LogEntryGo (α : Type) where
  severity : String
  message : α
  httpRequest : HttpRequestGo
  labels : List (String × String)
  spanID : String
  traceID : String
  traceSampled : Bool
deriving Repr, DecidableEq

/-- Embedding of `info` (lines 57-78); the eight severity functions are
copy-pasted in the source, so each is embedded with its own full body. -/
def info (r : RequestGo) (message : α) (projectID : String) : LogEntryGo α :=
  let get := r.headerXCloudTraceContext
  let parts := deconstructXCloudTraceContext get
  let traceID := "projects/" ++ projectID ++ "/traces/" ++ parts.traceID
  { severity := "INFO"
    message := message
    httpRequest :=
      { requestMethod := r.method
        requestUrl := r.urlString
        userAgent := r.userAgent
        remoteIp := r.remoteAddr
        referer := r.referer }
    labels := [("labels", "rock")]
    spanID := parts.spanID
    traceID := traceID
    traceSampled := parts.traceSampled }

/-- Embedding of `debug` (lines 116-137). -/
def debug (r : RequestGo) (message : α) (projectID : String) : LogEntryGo α :=
  let get := r.headerXCloudTraceContext
  let parts := deconstructXCloudTraceContext get
  let traceID := "projects/" ++ projectID ++ "/traces/" ++ parts.traceID
  { severity := "DEBUG"
    message := message
    httpRequest :=
      { requestMethod := r.method
        requestUrl := r.urlString
        userAgent := r.userAgent
        remoteIp := r.remoteAddr
        referer := r.referer }
    labels := [("labels", "rock")]
    spanID := parts.spanID
    traceID := traceID
    traceSampled := parts.traceSampled }

/-- Embedding of `notice` (lines 139-160). -/
def notice (r : RequestGo) (message : α) (projectID : String) : LogEntryGo α :=
  let get := r.headerXCloudTraceContext
  let parts := deconstructXCloudTraceContext get
  let traceID := "projects/" ++ projectID ++ "/traces/" ++ parts.traceID
  { severity := "NOTICE"
    message := message
    httpRequest :=
      { requestMethod := r.method
        requestUrl := r.urlString
        userAgent := r.userAgent
        remoteIp := r.remoteAddr
        referer := r.referer }
    labels := [("labels", "rock")]
    spanID := parts.spanID
    traceID := traceID
    traceSampled := parts.traceSampled }

/-- Embedding of `warning` (lines 162-183). -/
def warning (r : RequestGo) (message : α) (projectID : String) : LogEntryGo α :=
  let get := r.headerXCloudTraceContext
  let parts := deconstructXCloudTraceContext get
  let traceID := "projects/" ++ projectID ++ "/traces/" ++ parts.traceID
  { severity := "WARNING"
    message := message
    httpRequest :=
      { requestMethod := r.method
        requestUrl := r.urlString
        userAgent := r.userAgent
        remoteIp := r.remoteAddr
        referer := r.referer }
    labels := [("labels", "rock")]
    spanID := parts.spanID
    traceID := traceID
    traceSampled := parts.traceSampled }

/-- Embedding of `errorl` (lines 185-206). -/
def errorl (r : RequestGo) (message : α) (projectID : String) : LogEntryGo α :=
  let get := r.headerXCloudTraceContext
  let parts := deconstructXCloudTraceContext get
  let traceID := "projects/" ++ projectID ++ "/traces/" ++ parts.traceID
  { severity := "ERROR"
    message := message
    httpRequest :=
      { requestMethod := r.method
        requestUrl := r.urlString
        userAgent := r.userAgent
        remoteIp := r.remoteAddr
        referer := r.referer }
    labels := [("labels", "rock")]
    spanID := parts.spanID
    traceID := traceID
    traceSampled := parts.traceSampled }

/-- Embedding of `critical` (lines 208-229). -/
def critical (r : RequestGo) (message : α) (projectID : String) : LogEntryGo α :=
  let get := r.headerXCloudTraceContext
  let parts := deconstructXCloudTraceContext get
  let traceID := "projects/" ++ projectID ++ "/traces/" ++ parts.traceID
  { severity := "CRITICAL"
    message := message
    httpRequest :=
      { requestMethod := r.method
        requestUrl := r.urlString
        userAgent := r.userAgent
        remoteIp := r.remoteAddr
        referer := r.referer }
    labels := [("labels", "rock")]
    spanID := parts.spanID
    traceID := traceID
    traceSampled := parts.traceSampled }

/-- Embedding of `alert` (lines 231-252). -/
def alert (r : RequestGo) (message : α) (projectID : String) : LogEntryGo α :=
  let get := r.headerXCloudTraceContext
  let parts := deconstructXCloudTraceContext get
  let traceID := "projects/" ++ projectID ++ "/traces/" ++ parts.traceID
  { severity := "ALERT"
    message := message
    httpRequest :=
      { requestMethod := r.method
        requestUrl := r.urlString
        userAgent := r.userAgent
        remoteIp := r.remoteAddr
        referer := r.referer }
    labels := [("labels", "rock")]
    spanID := parts.spanID
    traceID := traceID
    traceSampled := parts.traceSampled }

/-- Embedding of `emergency` (lines 254-275). -/
def emergency (r : RequestGo) (message : α) (projectID : String) : LogEntryGo α :=
  let get := r.headerXCloudTraceContext
  let parts := deconstructXCloudTraceContext get
  let traceID := "projects/" ++ projectID ++ "/traces/" ++ parts.traceID
  { severity := "EMERGENCY"
    message := message
    httpRequest :=
      { requestMethod := r.method
        requestUrl := r.urlString
        userAgent := r.userAgent
        remoteIp := r.remoteAddr
        referer := r.referer }
    labels := [("labels", "rock")]
    spanID := parts.spanID
    traceID := traceID
    traceSampled := parts.traceSampled }

/-! ## Part 2: coordinated shutdown (`cmd/graceful/main.go`)

The coordinator `run` is embedded as a deterministic executor over an
environment (`Scenario`) describing the external world: which termination
signal arrives (if any), and how the listener/drain behaves.  Concurrency is
resolved into one linearisation per scenario that respects every
happens-before edge of the program:

* `httpServer.Shutdown` (the bounded graceful stop, main.go line 97) first
  closes the open listeners — which is what makes `ListenAndServe` return
  `http.ErrServerClosed` — and runs the hooks registered with
  `RegisterOnShutdown` (line 77, here the root `cancelFunc`), then waits
  until the in-flight connections finish or the supplied context's deadline
  elapses.  In particular the root cancel trigger is fired only from inside
  `Shutdown` (or by the deferred `cancelFunc()` of line 61 when `run`
  returns), never before `Shutdown` is invoked.
* `ListenAndServe` (line 104) returns `http.ErrServerClosed` exactly when
  the listeners were closed by `Shutdown`; any other return is an error
  (bind failure or unexpected accept failure).
* The errgroup contains a single task (lines 89-102): receive the first
  termination signal, create a fresh 9-second deadline context from
  `context.Background()`, and call `Shutdown` with it.
-/

/-- Termination signals registered with `signal.Notify` (main.go lines
81-85): `os.Interrupt` (SIGINT) and `syscall.SIGTERM`. -/
inductive Sig
  | sigint
  | sigterm
deriving Repr, DecidableEq

/-- Set of signals the watcher subscribes to (main.go lines 81-85). -/
def registeredSignals : List Sig := [Sig.sigint, Sig.sigterm]

/-- String a received signal prints as in the `log.Printf("sig: %s - ...")`
line (Go's names for the two signals). -/
def Sig.renderGo : Sig → String
  | .sigint => "interrupt"
  | .sigterm => "terminated"

/-- Concrete operating-system error causes used to populate the failure
scenarios (a bind failure, an unexpected accept failure, a close failure). -/
inductive ErrCode
  | addrInUse
  | connReset
  | badFd
deriving Repr, DecidableEq

/-- Errors produced by the Go standard-library collaborators. -/
inductive GoErr
  | errServerClosed
  | deadlineExceeded
  | oserr (c : ErrCode)
deriving Repr, DecidableEq

/-- Message text of a collaborator error, as `%v`/`%w` formatting prints it. -/
def GoErr.renderGo : GoErr → String
  | .errServerClosed => "http: Server closed"
  | .deadlineExceeded => "context deadline exceeded"
  | .oserr .addrInUse => "address already in use"
  | .oserr .connReset => "connection reset by peer"
  | .oserr .badFd => "bad file descriptor"

/-- Errors `run` can return: the wrap of line 105
(`fmt.Errorf("httpServer.ListenAndServe(): %v", err)`) or of line 98
(`fmt.Errorf("httpServer.Shutdown(): %w", err)`); each constructor carries
its underlying cause. -/
inductive RunError
  | listenAndServe (cause : GoErr)
  | shutdown (cause : GoErr)
deriving Repr, DecidableEq

/-- Message text of a wrapped `run` error. -/
def RunError.renderGo : RunError → String
  | .listenAndServe e => "httpServer.ListenAndServe(): " ++ e.renderGo
  | .shutdown e => "httpServer.Shutdown(): " ++ e.renderGo

/-- Model of Go `context.Context` construction: a context is the background
context, a cancellable child (`context.WithCancel`), or a child with a
deadline (`context.WithTimeout`, duration in seconds). -/
inductive Context
  | background
  | withCancel (parent : Context)
  | withTimeout (parent : Context) (seconds : Nat)
deriving Repr, DecidableEq

/-- Chain from a context up to the background context, itself included. -/
def Context.selfAndAncestors : Context → List Context
  | .background => [.background]
  | .withCancel p => .withCancel p :: p.selfAndAncestors
  | .withTimeout p d => .withTimeout p d :: p.selfAndAncestors

/-- Deadline of a context, when it was built with `context.WithTimeout`. -/
def Context.timeoutSeconds : Context → Option Nat
  | .withTimeout _ d => some d
  | _ => none

/-- Root context of the process: `ctx, cancelFunc :=
context.WithCancel(context.Background())` (main.go line 60). -/
def rootCtx : Context := .withCancel .background

/-- Deadline context for the drain: `graceFull, cancel :=
context.WithTimeout(context.Background(), 9*time.Second)` (main.go line 94). -/
def graceFullCtx : Context := .withTimeout .background 9

/-- Deadline the coordinator passes to the bounded stop, read off the
deadline context it creates. -/
def shutdownDeadlineSecs : Nat := (Context.timeoutSeconds graceFullCtx).getD 0

/-- Cancellation state of the context tree: the set of contexts whose own
cancel trigger has fired. -/
structure CancelState where
  fired : List Context
deriving Repr, DecidableEq

/-- Model of invoking a `context.CancelFunc`: per the `context` package
contract, after the first call subsequent calls do nothing, so the trigger
is recorded at most once and the operation is total (no panic). -/
def cancelTrigger (st : CancelState) (c : Context) : CancelState :=
  if c ∈ st.fired then st else ⟨c :: st.fired⟩

/-- Cancellation observable of a context: true when its own trigger or any
ancestor's trigger has fired (cancellation propagates to every derived
context). -/
def isCancelled (st : CancelState) (c : Context) : Bool :=
  c.selfAndAncestors.any (st.fired.contains ·)

/-- Behaviour of the drain once `Shutdown` has stopped the accept loop:
either the last in-flight handler finishes `secs` seconds after the stop
began, or some handler never finishes, or closing the listeners itself
fails for a reason unrelated to timing. -/
inductive Drain
  | completed (secs : Nat)
  | stuck
  | closeErr (c : ErrCode)
deriving Repr, DecidableEq

/-- Model of `net/http.Server.Shutdown` restricted to a deadline context of
`deadline` seconds (the collaborator's documented contract): `nil` when all
in-flight handlers finish within the deadline, `context.DeadlineExceeded`
when the deadline elapses first, and the close error otherwise. -/
def serverShutdownResult (deadline : Nat) : Drain → Option GoErr
  | .completed t => if t ≤ deadline then none else some .deadlineExceeded
  | .stuck => some .deadlineExceeded
  | .closeErr c => some (.oserr c)

/-- Observable events of one process run, in linearised order. -/
inductive Event
  | logStarting (addr : String)
  | signalReceived (s : Sig)
  | logSigShutdown (s : Sig)
  | shutdownInvoked (ctx : Context)
  | listenersClosed
  | rootCancelled
  | listenReturned (e : GoErr)
  | shutdownReturned (r : Option GoErr)
  | logGraceful
deriving Repr, DecidableEq

/-- Environment value for `os.Getenv("PORT")` (empty when unset, main.go
lines 63-66). -/
structure Config where
  portEnv : String
deriving Repr, DecidableEq

/-- Listening address: `":" + port` with the `"8080"` default (main.go
lines 63-68). -/
def Config.addr (cfg : Config) : String :=
  ":" ++ (if cfg.portEnv = "" then "8080" else cfg.portEnv)

/-- External world of one run of the coordinator.  `bindFailure`:
`ListenAndServe` cannot bind and returns at once; `acceptFailure`: the
accept loop fails unexpectedly while no signal has arrived; `signalled`:
the first termination signal `s` arrives (with `laterSigs` any further
signals, which the one-shot watcher never delivers to the coordinator), and
the drain then behaves as `d`. -/
inductive Scenario
  | bindFailure (e : ErrCode)
  | acceptFailure (e : ErrCode)
  | signalled (s : Sig) (laterSigs : List Sig) (d : Drain)
deriving Repr, DecidableEq

/-- Result of one execution of `run`: the linearised event trace, the value
`run` returns (`none` is Go's `nil`), and the final state of the context
cancel triggers. -/
structure RunResult where
  events : List Event
  ret : Option RunError
  finalCancel : CancelState
deriving Repr, DecidableEq

/-- Embedding of `run` (main.go lines 22-108) as a function of the external
scenario.  Error paths: when `ListenAndServe` returns anything but
`http.ErrServerClosed`, `run` returns the line-105 wrap immediately and the
deferred `cancelFunc()` (line 61) fires the root trigger on the way out.
Signal path: the errgroup task receives the first signal, logs it, builds
the fresh 9-second `graceFull` context and invokes `Shutdown` with it;
`Shutdown` closes the listeners (unblocking `ListenAndServe` with
`ErrServerClosed`), runs the registered on-shutdown hook — the root
`cancelFunc` — and then resolves the drain; `run` then returns `g.Wait()`,
i.e. the line-98 wrap of the `Shutdown` error if any, and the deferred
`cancelFunc()` fires the (already fired, hence no-op) root trigger again. -/
def runExec (cfg : Config) (sc : Scenario) : RunResult :=
  let st0 : CancelState := ⟨[]⟩
  match sc with
  | .bindFailure e =>
      { events := [.logStarting cfg.addr, .listenReturned (.oserr e), .rootCancelled]
        ret := some (.listenAndServe (.oserr e))
        finalCancel := cancelTrigger st0 rootCtx }
  | .acceptFailure e =>
      { events := [.logStarting cfg.addr, .listenReturned (.oserr e), .rootCancelled]
        ret := some (.listenAndServe (.oserr e))
        finalCancel := cancelTrigger st0 rootCtx }
  | .signalled s _laterSigs d =>
      let r := serverShutdownResult shutdownDeadlineSecs d
      { events :=
          [.logStarting cfg.addr, .signalReceived s, .logSigShutdown s,
           .shutdownInvoked graceFullCtx, .listenersClosed, .rootCancelled,
           .listenReturned .errServerClosed, .shutdownReturned r] ++
          (match r with | none => [.logGraceful] | some _ => [])
        ret := r.map .shutdown
        finalCancel := cancelTrigger (cancelTrigger st0 rootCtx) rootCtx }

/-- Log line an event prints, when it prints one (main.go lines 92, 100,
103). -/
def Event.logLine : Event → Option String
  | .logStarting a => some ("starting server on \"" ++ a ++ "\"")
  | .logSigShutdown s => some ("sig: " ++ s.renderGo ++ " - starting shutting down sequence...")
  | .logGraceful => some "server has shutdown gracefully"
  | _ => none

/-- Log lines of one execution of `run`, in order. -/
def runLogs (cfg : Config) (sc : Scenario) : List String :=
  (runExec cfg sc).events.filterMap Event.logLine

/-- Result of one execution of the whole process. -/
structure ProcessResult where
  logs : List String
  exitCode : Nat
deriving Repr, DecidableEq

/-- Embedding of `main` (main.go lines 16-20): on a `run` error,
`log.Fatalf("run(): %v", err)` prints the wrapped error and exits with
status 1; otherwise the process exits with status 0. -/
def mainExec (cfg : Config) (sc : Scenario) : ProcessResult :=
  match (runExec cfg sc).ret with
  | none => { logs := runLogs cfg sc, exitCode := 0 }
  | some e => { logs := runLogs cfg sc ++ ["run(): " ++ e.renderGo], exitCode := 1 }

/-- Tri-state drain outcome of the specification (spec section 3, "Drain
Outcome"). -/
inductive Outcome
  | clean
  | timedOut
  | listenerError
deriving Repr, DecidableEq

/-- Outcome class of a `run` return value: `clean` for `nil`, `timedOut`
for a deadline-exceeded `Shutdown` error, `listenerError` for every other
error. -/
def outcomeOf : Option RunError → Outcome
  | none => .clean
  | some (.shutdown .deadlineExceeded) => .timedOut
  | some _ => .listenerError

/-- Decoder recovering the outcome class from the process's final log line;
its existence shows the three outcomes print as three distinct lines. -/
def classifyLastLog (line : String) : Outcome :=
  if line = "server has shutdown gracefully" then .clean
  else if line = "run(): httpServer.Shutdown(): context deadline exceeded" then .timedOut
  else .listenerError

/-- Result of the accept-loop task as `run` observes it (the value
`ListenAndServe` returns): in the signal path `Shutdown` closes the
listeners so the loop ends with `http.ErrServerClosed`. -/
def listenOutcome : Scenario → GoErr
  | .bindFailure e => .oserr e
  | .acceptFailure e => .oserr e
  | .signalled _ _ _ => .errServerClosed

/-- Result of the signal-wait/shutdown errgroup task: `none` when the task
never completes (no signal ever arrives before the process exits), `some r`
when it completes returning `r`. -/
def shutdownTaskOutcome : Scenario → Option (Option GoErr)
  | .signalled _ _ d => some (serverShutdownResult shutdownDeadlineSecs d)
  | _ => none

/-- Whether an (optional) task completion carries an error. -/
def taskEndedWithError : Option (Option GoErr) → Bool
  | some (some _) => true
  | _ => false

/-- First error encountered among the two cooperating tasks: an accept-loop
return other than `ErrServerClosed` surfaces first (line 104-106, before
`g.Wait()`); otherwise the shutdown task's error, if any, surfaces through
`g.Wait()` (line 107). -/
def firstTaskError (sc : Scenario) : Option RunError :=
  if listenOutcome sc == GoErr.errServerClosed then
    match shutdownTaskOutcome sc with
    | some (some e) => some (.shutdown e)
    | _ => none
  else some (.listenAndServe (listenOutcome sc))

/-- Whether a `run` return value is a wrap of a `ListenAndServe` error. -/
def isListenErrorRet : Option RunError → Bool
  | some (.listenAndServe _) => true
  | _ => false

/-- Position of the first occurrence of an event in a trace (length of the
trace when absent). -/
def eventIdx (a : Event) : List Event → Nat
  | [] => 0
  | b :: t => if a = b then 0 else eventIdx a t + 1

/-- Whether `a` occurs strictly before `b` in the trace (both present and
the first occurrence of `a` earlier than that of `b`). -/
def strictlyPrecedes (es : List Event) (a b : Event) : Bool :=
  decide (a ∈ es) && decide (b ∈ es) && decide (eventIdx a es < eventIdx b es)

/-- Contexts passed to `Shutdown` over a trace, in order of invocation. -/
def shutdownCtxArgs (es : List Event) : List Context :=
  es.filterMap (fun e => match e with | .shutdownInvoked c => some c | _ => none)

/-- Number of signal events the coordinator consumes in a trace. -/
def signalEventCount (es : List Event) : Nat :=
  es.countP (fun e => match e with | .signalReceived _ => true | _ => false)

/-- Projection erasing the signal identity from an event, used to state
that the shutdown sequence does not branch on which signal fired. -/
def Event.eraseSig : Event → Event
  | .signalReceived _ => .signalReceived .sigint
  | .logSigShutdown _ => .logSigShutdown .sigint
  | e => e

/-! ## Theorems, part 1: structured logging -/

/-- Helper: comparing a built string with the literal `"1"` is comparing the
character data with `['1']`. -/
theorem stringMk_beq_one (l : List Char) :
    ((⟨l⟩ : String) == "1") = (l == ['1']) := by
  rw [Bool.eq_iff_iff]
  simp only [beq_iff_eq]
  constructor
  · intro h
    exact congrArg String.data h
  · intro h
    subst h
    rfl

/-- Helper: the sampling group of the leftmost match captures exactly `"1"`
precisely when the input remainder continues with the characters `;o=1`. -/
theorem sampled_group_char (L : List Char) :
    ((match L with
      | ';' :: 'o' :: '=' :: c :: _ => if isDecDigitGo c then some [c] else none
      | _ => none).getD [] == ['1'])
      = (L.take 4 == [';', 'o', '=', '1']) := by
  rw [Bool.eq_iff_iff]
  simp only [beq_iff_eq]
  split
  next c x =>
    by_cases hc : c = '1'
    · subst hc
      have hdig : isDecDigitGo '1' = true := by decide
      simp [hdig, List.take_succ_cons]
    · rcases hdig : isDecDigitGo c <;> simp [hdig, hc, List.take_succ_cons]
  next h =>
    simp only [Option.getD_none]
    constructor
    · intro habs
      exact absurd habs (by simp)
    · intro htake
      exfalso
      refine h '1' (L.drop 4) ?_
      conv_lhs => rw [← List.take_append_drop 4 L]
      rw [htake]
      rfl

/-- Claim C9: for every input string — including the empty string and
strings with no `/` or `;o=` components — the trace-header parser is total:
the submatch search never returns nil (all groups are optional, so the
result is always present with submatch indices 1 through 3 in a 4-entry
list), the returned span id is never the literal `"0"` (a captured span id
of `"0"` is normalised to `""`), and `traceSampled` is true exactly when the
`;o=` group of the leftmost match captures the digit `1`, i.e. when the
remainder after the trace-id and span components begins with `;o=1`. -/
theorem trace_header_parser_total_normalised (s : String) :
    (findStringSubmatch s).isSome = true
  ∧ ((findStringSubmatch s).getD []).length = 4
  ∧ ((deconstructXCloudTraceContext s).spanID == "0") = false
  ∧ (deconstructXCloudTraceContext s).traceSampled = oComponentIsOne s.data := by
  refine ⟨rfl, rfl, ?_, ?_⟩
  · simp only [deconstructXCloudTraceContext]
    split
    next => rfl
    next h => simpa using h
  · simp only [deconstructXCloudTraceContext, apply_ite TraceParts.traceSampled, ite_self]
    rw [stringMk_beq_one]
    simp only [matchTraceContext]
    rw [oComponentIsOne]
    exact sampled_group_char (afterTraceSpan s.data)

/-- Claim C10: every log entry produced by each of the eight severity
functions (`debug`, `info`, `notice`, `warning`, `errorl`, `critical`,
`alert`, `emergency`) carries a `TraceID` equal to
`"projects/" ++ projectID ++ "/traces/" ++ parsedTraceID`; the prefix is
applied unconditionally — when the `X-Cloud-Trace-Context` header is absent,
`Header.Get` yields `""`, the parsed trace id is `""`, and the prefix is
still applied. -/
theorem severity_entries_traceID_prefixed (α : Type) (r : RequestGo) (m : α) (pid : String) :
    ((debug r m pid).traceID
      = "projects/" ++ pid ++ "/traces/" ++ (deconstructXCloudTraceContext r.headerXCloudTraceContext).traceID)
  ∧ ((info r m pid).traceID
      = "projects/" ++ pid ++ "/traces/" ++ (deconstructXCloudTraceContext r.headerXCloudTraceContext).traceID)
  ∧ ((notice r m pid).traceID
      = "projects/" ++ pid ++ "/traces/" ++ (deconstructXCloudTraceContext r.headerXCloudTraceContext).traceID)
  ∧ ((warning r m pid).traceID
      = "projects/" ++ pid ++ "/traces/" ++ (deconstructXCloudTraceContext r.headerXCloudTraceContext).traceID)
  ∧ ((errorl r m pid).traceID
      = "projects/" ++ pid ++ "/traces/" ++ (deconstructXCloudTraceContext r.headerXCloudTraceContext).traceID)
  ∧ ((critical r m pid).traceID
      = "projects/" ++ pid ++ "/traces/" ++ (deconstructXCloudTraceContext r.headerXCloudTraceContext).traceID)
  ∧ ((alert r m pid).traceID
      = "projects/" ++ pid ++ "/traces/" ++ (deconstructXCloudTraceContext r.headerXCloudTraceContext).traceID)
  ∧ ((emergency r m pid).traceID
      = "projects/" ++ pid ++ "/traces/" ++ (deconstructXCloudTraceContext r.headerXCloudTraceContext).traceID)
  ∧ (RequestGo.mk none r.method r.urlString r.userAgent r.remoteAddr r.referer).headerXCloudTraceContext = ""
  ∧ (deconstructXCloudTraceContext "").traceID = "" :=
  ⟨rfl, rfl, rfl, rfl, rfl, rfl, rfl, rfl, rfl, rfl⟩

/-! ## Theorems, part 2: coordinated shutdown -/

/-- Claim C1 (counterexample): the claim states that on receipt of a
termination signal the root context's cancellation becomes true strictly
before `BeginGracefulStop` (`httpServer.Shutdown`) is invoked.  In the
concrete run where SIGTERM arrives and the drain completes after 3 seconds,
this is false: the root cancel trigger is only registered via
`RegisterOnShutdown` (main.go line 77), so it fires inside `Shutdown`,
after the invocation. -/
theorem signal_cancel_precedes_shutdown_cex :
    strictlyPrecedes (runExec ⟨""⟩ (.signalled .sigterm [] (.completed 3))).events
      .rootCancelled (.shutdownInvoked graceFullCtx) = false := by decide

/-- Claim C1 (amended): for every run in which a termination signal fires,
the invocation of `BeginGracefulStop` strictly precedes the root context's
cancellation (the cancel trigger being a hook that `Shutdown` itself runs),
and the cancellation strictly precedes `BeginGracefulStop`'s return — so
cancellation still happens-before the drain outcome is decided, but at or
after the invocation, not strictly before it.  The signal receipt itself
does precede the `Shutdown` invocation. -/
theorem shutdown_invocation_precedes_root_cancel (p : String) (s : Sig)
    (rest : List Sig) (d : Drain) :
    strictlyPrecedes (runExec ⟨p⟩ (.signalled s rest d)).events
      (.shutdownInvoked graceFullCtx) .rootCancelled = true
  ∧ strictlyPrecedes (runExec ⟨p⟩ (.signalled s rest d)).events
      .rootCancelled (.shutdownReturned (serverShutdownResult shutdownDeadlineSecs d)) = true
  ∧ strictlyPrecedes (runExec ⟨p⟩ (.signalled s rest d)).events
      (.signalReceived s) (.shutdownInvoked graceFullCtx) = true := by
  cases hr : serverShutdownResult shutdownDeadlineSecs d <;>
    simp [runExec, hr, strictlyPrecedes, eventIdx]

/-- Claim C2: `run` returns nil exactly when the accept-loop task ends
without error (`ErrServerClosed`) and the signal-wait/shutdown task does not
end with an error; otherwise `run` returns the first error encountered from
either task.  The root cancel trigger fires in every run (via the
`RegisterOnShutdown` hook in the signal path, via the deferred
`cancelFunc()` on the error paths), cancelling the shared context under
which the sibling task runs. -/
theorem run_fail_fast_fan_in (p : String) (sc : Scenario) :
    ((runExec ⟨p⟩ sc).ret = firstTaskError sc)
  ∧ ((runExec ⟨p⟩ sc).ret = none ↔
      (listenOutcome sc = .errServerClosed ∧ taskEndedWithError (shutdownTaskOutcome sc) = false))
  ∧ Event.rootCancelled ∈ (runExec ⟨p⟩ sc).events := by
  cases sc with
  | bindFailure e =>
      refine ⟨rfl, ?_, ?_⟩ <;>
        simp [runExec, listenOutcome, shutdownTaskOutcome, taskEndedWithError]
  | acceptFailure e =>
      refine ⟨rfl, ?_, ?_⟩ <;>
        simp [runExec, listenOutcome, shutdownTaskOutcome, taskEndedWithError]
  | signalled s rest d =>
      cases hr : serverShutdownResult shutdownDeadlineSecs d <;>
        refine ⟨?_, ?_, ?_⟩ <;>
          simp [runExec, hr, listenOutcome, shutdownTaskOutcome, taskEndedWithError,
            firstTaskError]

/-- Claim C3: the accept loop yields nil (as `run` observes it) exactly on
a clean graceful stop — in the signal path it returns `ErrServerClosed` and
`run`'s result is never a `ListenAndServe` wrap — while a bind failure or
an unexpected accept failure makes `run` return the non-nil line-105 wrap
whose message carries the underlying cause. -/
theorem run_listen_error_contract (p : String) (e : ErrCode) (s : Sig)
    (rest : List Sig) (d : Drain) :
    ((runExec ⟨p⟩ (.bindFailure e)).ret = some (.listenAndServe (.oserr e)))
  ∧ ((runExec ⟨p⟩ (.acceptFailure e)).ret = some (.listenAndServe (.oserr e)))
  ∧ ((RunError.listenAndServe (.oserr e)).renderGo
      = "httpServer.ListenAndServe(): " ++ (GoErr.oserr e).renderGo)
  ∧ isListenErrorRet (runExec ⟨p⟩ (.signalled s rest d)).ret = false
  ∧ Event.listenReturned .errServerClosed ∈ (runExec ⟨p⟩ (.signalled s rest d)).events := by
  refine ⟨rfl, rfl, rfl, ?_, ?_⟩ <;>
    cases hr : serverShutdownResult shutdownDeadlineSecs d <;>
      simp [runExec, hr, isListenErrorRet]

/-- Claim C4: on every shutdown-signal receipt the context passed to
`BeginGracefulStop` is exactly the freshly created `graceFull` context: a
9-second-timeout child of the background context, not the root and not
derived from the root, and it stays uncancelled when the root's trigger
fires (while the root itself is cancelled). -/
theorem drain_deadline_context_fresh (p : String) (s : Sig) (rest : List Sig)
    (d : Drain) :
    shutdownCtxArgs (runExec ⟨p⟩ (.signalled s rest d)).events = [graceFullCtx]
  ∧ graceFullCtx.timeoutSeconds = some 9
  ∧ shutdownDeadlineSecs = 9
  ∧ (graceFullCtx == rootCtx) = false
  ∧ (graceFullCtx.selfAndAncestors.contains rootCtx) = false
  ∧ (graceFullCtx.selfAndAncestors.contains .background) = true
  ∧ isCancelled (cancelTrigger ⟨[]⟩ rootCtx) graceFullCtx = false
  ∧ isCancelled (cancelTrigger ⟨[]⟩ rootCtx) rootCtx = true := by
  refine ⟨?_, rfl, rfl, by decide, by decide, by decide, by decide, by decide⟩
  cases hr : serverShutdownResult shutdownDeadlineSecs d <;>
    simp [runExec, hr, shutdownCtxArgs]

/-- Claim C5: when the drain completes within the deadline of the context
passed to `BeginGracefulStop`, the call returns nil and the run outcome is
clean; when the deadline elapses first (late completion or a handler that
never finishes), the call returns a deadline-exceeded error and the
coordinator's outcome is timed-out. -/
theorem drain_timeout_outcome (p : String) (s : Sig) (rest : List Sig) (t : Nat) :
    ((runExec ⟨p⟩ (.signalled s rest (.completed t))).ret
      = if t ≤ shutdownDeadlineSecs then none else some (.shutdown .deadlineExceeded))
  ∧ (Event.shutdownReturned (if t ≤ shutdownDeadlineSecs then none else some .deadlineExceeded)
      ∈ (runExec ⟨p⟩ (.signalled s rest (.completed t))).events)
  ∧ ((runExec ⟨p⟩ (.signalled s rest .stuck)).ret = some (.shutdown .deadlineExceeded))
  ∧ (outcomeOf (runExec ⟨p⟩ (.signalled s rest (.completed t))).ret
      = if t ≤ shutdownDeadlineSecs then .clean else .timedOut)
  ∧ (outcomeOf (runExec ⟨p⟩ (.signalled s rest .stuck)).ret = .timedOut) := by
  by_cases h : t ≤ 9 <;>
    refine ⟨?_, ?_, rfl, ?_, rfl⟩ <;>
      simp [runExec, serverShutdownResult, h, outcomeOf, shutdownDeadlineSecs,
        graceFullCtx, Context.timeoutSeconds]

/-- Claim C6: invoking the root cancel trigger twice — as the program does,
once via the `RegisterOnShutdown` hook during `Shutdown` and once via the
deferred call on exit — has the same effect as invoking it once: the state
transformer is idempotent (total, hence no panic), every context observes
the same cancellation flag, and the final cancel state of a signalled run
equals that of a single trigger invocation. -/
theorem root_cancel_idempotent (st : CancelState) (c : Context) (p : String)
    (s : Sig) (rest : List Sig) (d : Drain) :
    (cancelTrigger (cancelTrigger st c) c = cancelTrigger st c)
  ∧ (∀ c2 : Context, isCancelled (cancelTrigger (cancelTrigger st c) c) c2
      = isCancelled (cancelTrigger st c) c2)
  ∧ ((runExec ⟨p⟩ (.signalled s rest d)).finalCancel = cancelTrigger ⟨[]⟩ rootCtx) := by
  have hid : cancelTrigger (cancelTrigger st c) c = cancelTrigger st c := by
    by_cases h : c ∈ st.fired <;> simp [cancelTrigger, h]
  refine ⟨hid, fun c2 => by rw [hid], ?_⟩
  show cancelTrigger (cancelTrigger ⟨[]⟩ rootCtx) rootCtx = cancelTrigger ⟨[]⟩ rootCtx
  decide

/-- Claim C7: the watcher registers exactly SIGINT and SIGTERM; the
coordinator consumes exactly one signal event, and only the first delivered
signal matters (later signals do not change the run); and the whole run —
result, final cancel state, and trace up to the signal identity carried by
the two logging-related events — is identical whichever registered signal
fired. -/
theorem signal_watcher_contract (p : String) (s1 s2 : Sig) (r1 r2 : List Sig)
    (d : Drain) :
    registeredSignals = [Sig.sigint, Sig.sigterm]
  ∧ (runExec ⟨p⟩ (.signalled s1 r1 d)) = (runExec ⟨p⟩ (.signalled s1 [] d))
  ∧ signalEventCount (runExec ⟨p⟩ (.signalled s1 r1 d)).events = 1
  ∧ (runExec ⟨p⟩ (.signalled s1 r1 d)).ret = (runExec ⟨p⟩ (.signalled s2 r2 d)).ret
  ∧ ((runExec ⟨p⟩ (.signalled s1 r1 d)).events.map Event.eraseSig
      = (runExec ⟨p⟩ (.signalled s2 r2 d)).events.map Event.eraseSig)
  ∧ (runExec ⟨p⟩ (.signalled s1 r1 d)).finalCancel
      = (runExec ⟨p⟩ (.signalled s2 r2 d)).finalCancel := by
  refine ⟨rfl, rfl, ?_, rfl, ?_, rfl⟩
  · cases hr : serverShutdownResult shutdownDeadlineSecs d <;>
      simp [runExec, hr, signalEventCount]
  · cases s1 <;> cases s2 <;>
      cases hr : serverShutdownResult shutdownDeadlineSecs d <;>
        simp [runExec, hr, Event.eraseSig]

/-- Claim C8: the process exits with status 0 exactly when `run` returned
nil (and with status 1 otherwise), and the final log line determines which
of the three outcomes — clean, timed-out, listener-error — occurred: the
decoder `classifyLastLog` recovers the outcome class from it, so the three
outcomes print as three distinct lines. -/
theorem process_exit_behavior (p : String) (sc : Scenario) :
    ((mainExec ⟨p⟩ sc).exitCode = 0 ↔ (runExec ⟨p⟩ sc).ret = none)
  ∧ ((mainExec ⟨p⟩ sc).exitCode = 0 ∨ (mainExec ⟨p⟩ sc).exitCode = 1)
  ∧ classifyLastLog ((mainExec ⟨p⟩ sc).logs.getLastD "")
      = outcomeOf (runExec ⟨p⟩ sc).ret := by
  cases sc with
  | bindFailure e =>
      cases e <;>
        simp [mainExec, runExec, runLogs, Event.logLine, classifyLastLog, outcomeOf,
          RunError.renderGo, GoErr.renderGo]
  | acceptFailure e =>
      cases e <;>
        simp [mainExec, runExec, runLogs, Event.logLine, classifyLastLog, outcomeOf,
          RunError.renderGo, GoErr.renderGo]
  | signalled s rest d =>
      cases d with
      | completed t =>
          by_cases h : t ≤ 9 <;>
            simp [mainExec, runExec, runLogs, Event.logLine, classifyLastLog, outcomeOf,
              RunError.renderGo, GoErr.renderGo, serverShutdownResult, h,
              shutdownDeadlineSecs, graceFullCtx, Context.timeoutSeconds]
      | stuck =>
          simp [mainExec, runExec, runLogs, Event.logLine, classifyLastLog, outcomeOf,
            RunError.renderGo, GoErr.renderGo, serverShutdownResult]
      | closeErr c =>
          cases c <;>
            simp [mainExec, runExec, runLogs, Event.logLine, classifyLastLog, outcomeOf,
              RunError.renderGo, GoErr.renderGo, serverShutdownResult]

end EffectiveCloudRun
